import Mathlib

/-!
Verification of the stream-orchestration state machine of the
JSpeechRecognizer repository (`src/jspeechrecognizer/speech.py`).

The embedding is a shallow one, translated from the source:

* `SpeechRecognizer._recognize` (the per-frame handler, `speech.py:261-324`)
  becomes the pure step function `recognizeStep` on the state `RecState`,
  split into phases that mirror the source blocks:
  `RecState.afterRing` (lines 265-269), `RecState.afterWake` (271-276),
  `RecState.afterVad` (280-289), `RecState.afterSilence` (291-302),
  `RecState.resetState` (`_reset`, 254-259), `codeEvents` (310-324).
* The external collaborators (porcupine wake-word detector, VAD model,
  transcription backend) and the clock are oracles supplied per frame in
  `FrameInput`: `wakeMatch` abstracts `porcupine.process(arr) >= 0`,
  `vadSpeech` abstracts `self.vad.isSpeech(data)`, `recognize` abstracts
  `self.recognizer.recognize(bytes(data), isSpeech)`, and `now : Rat`
  abstracts the value of `time.time()` during the frame (the several
  `time.time()` calls inside one frame are nanoseconds apart and are
  modelled as one timestamp).
* Audio frames are abstracted by their identity (`Nat`); none of the
  orchestrator's control flow inspects frame contents.
* Python truthiness of `self._prevSpeaking` (either `None` or a float,
  falsy when `None` or `0.0`) is modelled on `Option Rat` exactly.
* `VoskRecognizer.recognize` (lines 57-75) becomes `voskRecognize`, with
  the underlying Kaldi recognizer's answers supplied as a `VoskOracle`;
  the returned `Bool` records whether `self.rec.Reset()` was called.
* `GoogleRecognizer.recognize` (lines 109-133) becomes `googleRecognize`,
  with the file-loading step and the google call supplied as oracles.
-/

attribute [local semireducible] Rat.add Rat.sub Rat.mul Rat.inv Rat.ofScientific

/-- Events delivered to the orchestrator's callback, one constructor per
`{"type": ...}` dictionary emitted in `speech.py`. -/
inductive Event where
  | wakeWordDetected
  | voiceActivity
  | completeFrames (frames : List Nat)
  | partialText (text : String)
  | fullText (text : String)
  | unrecognized
  | error (text : String)
  deriving DecidableEq, Repr

/-- Per-frame input: the raw frame (abstracted by an identifier) together
with the answers of the external collaborators and the clock on this frame. -/
structure FrameInput where
  frame : Nat
  now : Rat
  wakeMatch : Bool
  vadSpeech : Bool
  recognize : Bool → String × Bool × String

/-- The mutable state of `SpeechRecognizer` (fields set in `__init__`,
lines 238-252; names follow the source with the leading underscore
dropped). -/
structure RecState where
  speechLength : Rat
  realSpeechLength : Rat
  startSpeechLength : Rat
  woke : Bool
  listen : Bool
  prevSpeaking : Option Rat
  speakingLength : Rat
  frames : List Nat
  count : Nat
  wakeWordStreams : List Nat
  isSpeech : Bool
  deriving DecidableEq, Repr

/-- `SpeechRecognizer.__init__` with silence timeout parameter
`speechLength` (source default `0.9`, i.e. `9/10`). -/
def initState (sl : Rat) : RecState :=
  { speechLength := sl
    realSpeechLength := sl
    startSpeechLength := 4
    woke := false
    listen := true
    prevSpeaking := none
    speakingLength := 0
    frames := []
    count := 0
    wakeWordStreams := []
    isSpeech := true }

/-- `SpeechRecognizer._reset` (lines 254-259).  Note that it does not
touch `frames` or `wakeWordStreams`. -/
def RecState.resetState (s : RecState) (now : Rat) : RecState :=
  { s with woke := false, count := 0, prevSpeaking := some now,
           speakingLength := 0, isSpeech := true }

/-- The pre-wake ring push (lines 267-269): `pop(0)` when the buffer already
holds at least 30 frames, then `append`. -/
def ringPush (l : List Nat) (f : Nat) : List Nat :=
  (if 30 ≤ l.length then l.tail else l) ++ [f]

/-- Lines 266-269: while not woke, push the frame onto `wakeWordStreams`. -/
def RecState.afterRing (s : RecState) (f : Nat) : RecState :=
  if s.woke then s
  else { s with wakeWordStreams := ringPush s.wakeWordStreams f }

/-- Lines 265-276: the ring push followed by the wake-word check
(`wakeWordIndex >= 0 and not self.woke`), returning the updated state and
the events emitted so far on this frame. -/
def RecState.afterWake (s : RecState) (i : FrameInput) : RecState × List Event :=
  let s0 := s.afterRing i.frame
  if i.wakeMatch && !s0.woke then
    ({ s0 with woke := true, count := 0, prevSpeaking := some i.now },
      [Event.wakeWordDetected])
  else (s0, [])

/-- Lines 280-289: append the frame to `frames`, then run the VAD; on
speech, bump `count`, refresh `prevSpeaking` and emit `voiceActivity`. -/
def RecState.afterVad (s : RecState) (i : FrameInput) : RecState × List Event :=
  let s1 := { s with frames := s.frames ++ [i.frame] }
  if i.vadSpeech then
    ({ s1 with count := s1.count + 1, prevSpeaking := some i.now },
      [Event.voiceActivity])
  else (s1, [])

/-- Lines 291-302: when `self._prevSpeaking` is truthy (not `None` and not
`0.0`), recompute `speakingLength` and select the active threshold
(`startSpeechLength` while `count == 0`, else `realSpeechLength`); then
clear `isSpeech` when the silence exceeds the threshold. -/
def RecState.afterSilence (s : RecState) (now : Rat) : RecState :=
  let s1 :=
    match s.prevSpeaking with
    | none => s
    | some t =>
      if t = 0 then s
      else { s with speakingLength := now - t,
                    speechLength :=
                      if s.count = 0 then s.startSpeechLength
                      else s.realSpeechLength }
  if s1.speakingLength > s1.speechLength then { s1 with isSpeech := false }
  else s1

/-- Python's `str.startswith(pre)` check (used on the status code at line
321), defined over the underlying character data. -/
def pyStartsWith (s pre : String) : Bool := pre.data.isPrefixOf s.data

/-- Lines 310-324: map the backend's status code to an event. -/
def codeEvents (text code : String) : List Event :=
  if code = "partial" then [Event.partialText text]
  else if code = "full" then [Event.fullText text]
  else if code = "unrecognized" then [Event.unrecognized]
  else if pyStartsWith code "error: " then [Event.error code]
  else []

/-- Lines 278-324, the body of `if self.woke:`: frame accumulation, VAD,
silence-timeout update, backend call, possible `completeFrames` + reset
(emitted before the status-code event, mirroring source order), then the
status-code event. -/
def RecState.awakeBody (s : RecState) (i : FrameInput) : RecState × List Event :=
  let s3 := ((s.afterVad i).1).afterSilence i.now
  let res := i.recognize s3.isSpeech
  ((if s3.isSpeech then s3 else s3.resetState i.now),
    (s.afterVad i).2
      ++ (if s3.isSpeech then [] else [Event.completeFrames s3.frames])
      ++ codeEvents res.1 res.2.2)

/-- `SpeechRecognizer._recognize` (lines 261-324): one full frame step,
returning the new state and the events emitted on this frame in order. -/
def recognizeStep (s : RecState) (i : FrameInput) : RecState × List Event :=
  if (s.afterWake i).1.woke then
    (((s.afterWake i).1.awakeBody i).1,
      (s.afterWake i).2 ++ ((s.afterWake i).1.awakeBody i).2)
  else (s.afterWake i)

/-- Drive the orchestrator over a list of frames, collecting all emitted
events in order. -/
def runRec : RecState → List FrameInput → RecState × List Event
  | s, [] => (s, [])
  | s, i :: rest =>
    ((runRec (recognizeStep s i).1 rest).1,
      (recognizeStep s i).2 ++ (runRec (recognizeStep s i).1 rest).2)

/-- A state is reachable when some run from some construction reaches it. -/
def Reachable (s : RecState) : Prop :=
  ∃ sl inps, (runRec (initState sl) inps).1 = s

/-- The state just before the backend call on a frame (line 304): the
state after the ring/wake, VAD and silence-timeout phases. -/
def stateAtRecognize (s : RecState) (i : FrameInput) : RecState :=
  (((s.afterWake i).1.afterVad i).1).afterSilence i.now

/-- The state after the ring/wake and VAD phases but before the
silence-timeout block (whose `count` selects the threshold). -/
def stateAtVad (s : RecState) (i : FrameInput) : RecState :=
  ((s.afterWake i).1.afterVad i).1

/-! ### Phase characterization lemmas -/

theorem afterWake_of_woke (s : RecState) (i : FrameInput) (h : s.woke = true) :
    s.afterWake i = (s, []) := by
  unfold RecState.afterWake RecState.afterRing
  simp [h]

theorem afterWake_sleep_nomatch (s : RecState) (i : FrameInput)
    (h : s.woke = false) (hm : i.wakeMatch = false) :
    s.afterWake i =
      ({ s with wakeWordStreams := ringPush s.wakeWordStreams i.frame }, []) := by
  unfold RecState.afterWake RecState.afterRing
  simp [h, hm]

theorem afterWake_sleep_match (s : RecState) (i : FrameInput)
    (h : s.woke = false) (hm : i.wakeMatch = true) :
    s.afterWake i =
      ({ s with wakeWordStreams := ringPush s.wakeWordStreams i.frame,
                woke := true, count := 0, prevSpeaking := some i.now },
        [Event.wakeWordDetected]) := by
  unfold RecState.afterWake RecState.afterRing
  simp [h, hm]

theorem afterWake_fst_woke (s : RecState) (i : FrameInput) :
    (s.afterWake i).1.woke = (s.woke || i.wakeMatch) := by
  cases h : s.woke <;> cases hm : i.wakeMatch <;>
    simp [afterWake_of_woke, afterWake_sleep_nomatch, afterWake_sleep_match, h, hm]

theorem afterVad_of_no (s : RecState) (i : FrameInput) (h : i.vadSpeech = false) :
    s.afterVad i = ({ s with frames := s.frames ++ [i.frame] }, []) := by
  unfold RecState.afterVad
  simp [h]

theorem afterVad_of_yes (s : RecState) (i : FrameInput) (h : i.vadSpeech = true) :
    s.afterVad i =
      ({ s with frames := s.frames ++ [i.frame], count := s.count + 1,
                prevSpeaking := some i.now }, [Event.voiceActivity]) := by
  unfold RecState.afterVad
  simp [h]

theorem afterSilence_frames (s : RecState) (now : Rat) :
    (s.afterSilence now).frames = s.frames := by
  unfold RecState.afterSilence
  cases hps : s.prevSpeaking <;> dsimp <;> (repeat' split) <;> simp [hps]

theorem afterSilence_woke (s : RecState) (now : Rat) :
    (s.afterSilence now).woke = s.woke := by
  unfold RecState.afterSilence
  cases hps : s.prevSpeaking <;> dsimp <;> (repeat' split) <;> simp [hps]

theorem afterSilence_count (s : RecState) (now : Rat) :
    (s.afterSilence now).count = s.count := by
  unfold RecState.afterSilence
  cases hps : s.prevSpeaking <;> dsimp <;> (repeat' split) <;> simp [hps]

theorem afterSilence_wakeWordStreams (s : RecState) (now : Rat) :
    (s.afterSilence now).wakeWordStreams = s.wakeWordStreams := by
  unfold RecState.afterSilence
  cases hps : s.prevSpeaking <;> dsimp <;> (repeat' split) <;> simp [hps]

theorem afterSilence_prevSpeaking (s : RecState) (now : Rat) :
    (s.afterSilence now).prevSpeaking = s.prevSpeaking := by
  unfold RecState.afterSilence
  cases hps : s.prevSpeaking <;> dsimp <;> (repeat' split) <;> simp [hps]

theorem afterSilence_startSpeechLength (s : RecState) (now : Rat) :
    (s.afterSilence now).startSpeechLength = s.startSpeechLength := by
  unfold RecState.afterSilence
  cases hps : s.prevSpeaking <;> dsimp <;> (repeat' split) <;> simp [hps]

theorem afterSilence_realSpeechLength (s : RecState) (now : Rat) :
    (s.afterSilence now).realSpeechLength = s.realSpeechLength := by
  unfold RecState.afterSilence
  cases hps : s.prevSpeaking <;> dsimp <;> (repeat' split) <;> simp [hps]

theorem afterSilence_speechLength_of_truthy (s : RecState) (now t : Rat)
    (h : s.prevSpeaking = some t) (ht : t ≠ 0) :
    (s.afterSilence now).speechLength =
      (if s.count = 0 then s.startSpeechLength else s.realSpeechLength) := by
  unfold RecState.afterSilence
  rw [h]
  dsimp
  rw [if_neg ht]
  (repeat' split) <;> rfl

theorem awakeBody_fst_eq (s : RecState) (i : FrameInput) :
    (s.awakeBody i).1 =
      (if ((s.afterVad i).1.afterSilence i.now).isSpeech then
        (s.afterVad i).1.afterSilence i.now
      else ((s.afterVad i).1.afterSilence i.now).resetState i.now) := rfl

theorem awakeBody_snd_eq (s : RecState) (i : FrameInput) :
    (s.awakeBody i).2 =
      (s.afterVad i).2
        ++ (if ((s.afterVad i).1.afterSilence i.now).isSpeech then []
            else [Event.completeFrames ((s.afterVad i).1.afterSilence i.now).frames])
        ++ codeEvents (i.recognize ((s.afterVad i).1.afterSilence i.now).isSpeech).1
             (i.recognize ((s.afterVad i).1.afterSilence i.now).isSpeech).2.2 := rfl

theorem codeEvents_cases (text code : String) :
    codeEvents text code = [] ∨ codeEvents text code = [Event.partialText text] ∨
      codeEvents text code = [Event.fullText text] ∨
      codeEvents text code = [Event.unrecognized] ∨
      codeEvents text code = [Event.error code] := by
  unfold codeEvents
  repeat' split
  all_goals simp

theorem afterVad_fst_wakeWordStreams (s : RecState) (i : FrameInput) :
    ((s.afterVad i).1).wakeWordStreams = s.wakeWordStreams := by
  cases h : i.vadSpeech <;> simp [afterVad_of_no, afterVad_of_yes, h]

theorem afterVad_fst_frames (s : RecState) (i : FrameInput) :
    ((s.afterVad i).1).frames = s.frames ++ [i.frame] := by
  cases h : i.vadSpeech <;> simp [afterVad_of_no, afterVad_of_yes, h]

theorem afterVad_fst_woke (s : RecState) (i : FrameInput) :
    ((s.afterVad i).1).woke = s.woke := by
  cases h : i.vadSpeech <;> simp [afterVad_of_no, afterVad_of_yes, h]

theorem afterVad_fst_startSpeechLength (s : RecState) (i : FrameInput) :
    ((s.afterVad i).1).startSpeechLength = s.startSpeechLength := by
  cases h : i.vadSpeech <;> simp [afterVad_of_no, afterVad_of_yes, h]

theorem afterVad_fst_realSpeechLength (s : RecState) (i : FrameInput) :
    ((s.afterVad i).1).realSpeechLength = s.realSpeechLength := by
  cases h : i.vadSpeech <;> simp [afterVad_of_no, afterVad_of_yes, h]

theorem afterWake_fst_frames (s : RecState) (i : FrameInput) :
    ((s.afterWake i).1).frames = s.frames := by
  cases h : s.woke <;> cases hm : i.wakeMatch <;>
    simp [afterWake_of_woke, afterWake_sleep_nomatch, afterWake_sleep_match, h, hm]

theorem afterWake_fst_startSpeechLength (s : RecState) (i : FrameInput) :
    ((s.afterWake i).1).startSpeechLength = s.startSpeechLength := by
  cases h : s.woke <;> cases hm : i.wakeMatch <;>
    simp [afterWake_of_woke, afterWake_sleep_nomatch, afterWake_sleep_match, h, hm]

theorem afterWake_fst_realSpeechLength (s : RecState) (i : FrameInput) :
    ((s.afterWake i).1).realSpeechLength = s.realSpeechLength := by
  cases h : s.woke <;> cases hm : i.wakeMatch <;>
    simp [afterWake_of_woke, afterWake_sleep_nomatch, afterWake_sleep_match, h, hm]

theorem resetState_count (s : RecState) (now : Rat) :
    (s.resetState now).count = 0 := rfl

theorem resetState_woke (s : RecState) (now : Rat) :
    (s.resetState now).woke = false := rfl

theorem resetState_frames (s : RecState) (now : Rat) :
    (s.resetState now).frames = s.frames := rfl

theorem resetState_wakeWordStreams (s : RecState) (now : Rat) :
    (s.resetState now).wakeWordStreams = s.wakeWordStreams := rfl

theorem resetState_startSpeechLength (s : RecState) (now : Rat) :
    (s.resetState now).startSpeechLength = s.startSpeechLength := rfl

theorem resetState_realSpeechLength (s : RecState) (now : Rat) :
    (s.resetState now).realSpeechLength = s.realSpeechLength := rfl

theorem wake_not_mem_codeEvents (text code : String) :
    Event.wakeWordDetected ∉ codeEvents text code := by
  rcases codeEvents_cases text code with h | h | h | h | h <;> simp [h]

theorem complete_not_mem_codeEvents (text code : String) (F : List Nat) :
    Event.completeFrames F ∉ codeEvents text code := by
  rcases codeEvents_cases text code with h | h | h | h | h <;> simp [h]

theorem awakeBody_fst_wakeWordStreams (s : RecState) (i : FrameInput) :
    ((s.awakeBody i).1).wakeWordStreams = s.wakeWordStreams := by
  rw [awakeBody_fst_eq]
  split
  · rw [afterSilence_wakeWordStreams, afterVad_fst_wakeWordStreams]
  · rw [resetState_wakeWordStreams, afterSilence_wakeWordStreams,
      afterVad_fst_wakeWordStreams]

theorem awakeBody_fst_startSpeechLength (s : RecState) (i : FrameInput) :
    ((s.awakeBody i).1).startSpeechLength = s.startSpeechLength := by
  rw [awakeBody_fst_eq]
  split
  · rw [afterSilence_startSpeechLength, afterVad_fst_startSpeechLength]
  · rw [resetState_startSpeechLength, afterSilence_startSpeechLength,
      afterVad_fst_startSpeechLength]

theorem awakeBody_fst_realSpeechLength (s : RecState) (i : FrameInput) :
    ((s.awakeBody i).1).realSpeechLength = s.realSpeechLength := by
  rw [awakeBody_fst_eq]
  split
  · rw [afterSilence_realSpeechLength, afterVad_fst_realSpeechLength]
  · rw [resetState_realSpeechLength, afterSilence_realSpeechLength,
      afterVad_fst_realSpeechLength]

theorem recognizeStep_sleep (s : RecState) (i : FrameInput)
    (h : s.woke = false) (hm : i.wakeMatch = false) :
    recognizeStep s i =
      ({ s with wakeWordStreams := ringPush s.wakeWordStreams i.frame }, []) := by
  unfold recognizeStep
  rw [afterWake_sleep_nomatch s i h hm]
  simp [h]

theorem runRec_inv {P : RecState → Prop} {Q : FrameInput → Prop}
    (hstep : ∀ s i, Q i → P s → P (recognizeStep s i).1) :
    ∀ (inps : List FrameInput) (s : RecState),
      (∀ j ∈ inps, Q j) → P s → P (runRec s inps).1 := by
  intro inps
  induction inps with
  | nil => intro s _ hP; exact hP
  | cons i rest ih =>
    intro s hQ hP
    simp only [runRec]
    exact ih _ (fun j hj => hQ j (List.mem_cons_of_mem _ hj))
      (hstep s i (hQ i (List.mem_cons_self _ _)) hP)

theorem step_woke_count (s : RecState) (i : FrameInput)
    (h : s.woke = false → s.count = 0) :
    (recognizeStep s i).1.woke = false → (recognizeStep s i).1.count = 0 := by
  unfold recognizeStep
  cases hW : (s.afterWake i).1.woke
  · simp only [hW, Bool.false_eq_true, if_false]
    have hw : s.woke = false := by
      cases hsw : s.woke
      · rfl
      · have := afterWake_fst_woke s i
        rw [hW, hsw] at this
        simp at this
    have hm : i.wakeMatch = false := by
      cases him : i.wakeMatch
      · rfl
      · have := afterWake_fst_woke s i
        rw [hW, him] at this
        simp at this
    rw [afterWake_sleep_nomatch s i hw hm]
    intro _
    exact h hw
  · simp only [hW, if_true]
    rw [awakeBody_fst_eq]
    split
    · intro hc
      rw [afterSilence_woke, afterVad_fst_woke, hW] at hc
      cases hc
    · intro _
      rw [resetState_count]

theorem runRec_sleep_count (sl : Rat) (inps : List FrameInput) :
    (runRec (initState sl) inps).1.woke = false →
    (runRec (initState sl) inps).1.count = 0 :=
  runRec_inv (Q := fun _ => True) (P := fun s => s.woke = false → s.count = 0)
    (fun s i _ h => step_woke_count s i h) inps (initState sl) (fun _ _ => trivial)
    (fun _ => rfl)

/-! ### Claim C1 -/

def c1Wake : FrameInput := ⟨1, 100, true, false, fun _ => ("", false, "")⟩

def c1Tick : FrameInput := ⟨2, 200, false, false, fun _ => ("", false, "")⟩

/-- **C1, counterexample.**  The claim "`awake == false` implies the
utterance frame accumulator is empty" is false on the code: wake on frame 1
(`c1Wake`), then silence timeout on frame 2 (`c1Tick`) reaches a state with
`woke = false` but `frames = [1, 2] ≠ []`, because `_reset`
(`speech.py:254-259`) never clears `self._frames`. -/
theorem claimC1_counterexample :
    (runRec (initState (9/10)) [c1Wake, c1Tick]).1.woke = false ∧
      (runRec (initState (9/10)) [c1Wake, c1Tick]).1.frames = [1, 2] ∧
      (runRec (initState (9/10)) [c1Wake, c1Tick]).1.frames ≠ [] := by
  refine ⟨?_, ?_, ?_⟩ <;> decide

/-- **C1, amended.**  For every reachable state of the orchestrator,
`awake == false` implies the speech frame count is zero.  (The
Awake-to-Sleeping reset zeroes `_count` but does *not* clear
`utteranceFrames`, so the accumulator part of the original claim fails;
see `claimC1_counterexample`.) -/
theorem claimC1_sleeping_count_zero (s : RecState) (h : Reachable s)
    (hw : s.woke = false) : s.count = 0 := by
  obtain ⟨sl, inps, rfl⟩ := h
  exact runRec_sleep_count sl inps hw

/-- **C1, witness.**  The amended theorem applied to the concrete reachable
state produced by a wake followed by a silence timeout. -/
theorem claimC1_witness :
    (runRec (initState (9/10)) [c1Wake, c1Tick]).1.count = 0 :=
  claimC1_sleeping_count_zero _ ⟨9/10, [c1Wake, c1Tick], rfl⟩ (by decide)

theorem codeEvents_full (text : String) :
    codeEvents text "full" = [Event.fullText text] := by
  unfold codeEvents
  simp

/-! ### Claim C2 -/

def c2Wake : FrameInput := ⟨1, 100, true, false, fun _ => ("", false, "")⟩

def c2Full : FrameInput := ⟨2, 200, false, false,
  fun b => if b then ("", false, "") else ("turn on the lights", true, "full")⟩

def c2AwakeState : RecState :=
  { speechLength := 9/10, realSpeechLength := 9/10, startSpeechLength := 4,
    woke := true, listen := true, prevSpeaking := some 100, speakingLength := 0,
    frames := [1], count := 0, wakeWordStreams := [], isSpeech := true }

/-- **C2, counterexample.**  On the frame where the backend returns `full`
and the silence timeout fires, the source emits `completeFrames` (line 307)
*before* `fullText` (line 314), not after as the claim requires: the run
wake-then-timeout-with-full produces the event list
`[wakeWordDetected, completeFrames [1,2], fullText "turn on the lights"]`,
in which `completeFrames` has the strictly smaller index. -/
theorem claimC2_counterexample :
    (runRec (initState (9/10)) [c2Wake, c2Full]).2 =
      [Event.wakeWordDetected, Event.completeFrames [1, 2],
       Event.fullText "turn on the lights"] ∧
      List.indexOf (Event.completeFrames [1, 2])
          (runRec (initState (9/10)) [c2Wake, c2Full]).2 <
        List.indexOf (Event.fullText "turn on the lights")
          (runRec (initState (9/10)) [c2Wake, c2Full]).2 := by
  constructor <;> decide

/-- **C2, amended.**  On every frame processed awake on which the silence
timeout fires (`isSpeech` flag computed false) and the backend reports
status `full`, the frame's event list ends with the `completeFrames`
(utterance-complete) event immediately followed by the `fullText` event:
`UtteranceComplete` is emitted strictly *before* `FullText`. -/
theorem claimC2_complete_before_full (s : RecState) (i : FrameInput)
    (hw : (s.afterWake i).1.woke = true)
    (hs : (stateAtRecognize s i).isSpeech = false)
    (hc : (i.recognize false).2.2 = "full") :
    ∃ pre, (recognizeStep s i).2 =
      pre ++ [Event.completeFrames (stateAtRecognize s i).frames,
              Event.fullText (i.recognize false).1] := by
  unfold stateAtRecognize at hs ⊢
  unfold recognizeStep
  simp only [hw, if_true]
  rw [awakeBody_snd_eq]
  rw [hs, hc, codeEvents_full]
  refine ⟨(s.afterWake i).2 ++ ((s.afterWake i).1.afterVad i).2, ?_⟩
  simp

/-- **C2, witness.**  The amended theorem applied to a concrete awake state
and a frame whose backend answer is `("turn on the lights", true, "full")`
while the silence timeout fires. -/
theorem claimC2_witness :
    ∃ pre, (recognizeStep c2AwakeState c2Full).2 =
      pre ++ [Event.completeFrames (stateAtRecognize c2AwakeState c2Full).frames,
              Event.fullText (c2Full.recognize false).1] :=
  claimC2_complete_before_full c2AwakeState c2Full (by decide) (by decide) (by decide)

theorem afterWake_snd_cases (s : RecState) (i : FrameInput) :
    (s.afterWake i).2 = [] ∨ (s.afterWake i).2 = [Event.wakeWordDetected] := by
  cases h : s.woke <;> cases hm : i.wakeMatch <;>
    simp [afterWake_of_woke, afterWake_sleep_nomatch, afterWake_sleep_match, h, hm]

theorem afterVad_snd_cases (s : RecState) (i : FrameInput) :
    (s.afterVad i).2 = [] ∨ (s.afterVad i).2 = [Event.voiceActivity] := by
  cases h : i.vadSpeech <;> simp [afterVad_of_no, afterVad_of_yes, h]

/-! ### Claim C3 -/

def c3W1 : FrameInput := ⟨1, 100, true, false, fun _ => ("", false, "")⟩

def c3T2 : FrameInput := ⟨2, 200, false, false, fun _ => ("", false, "")⟩

def c3W3 : FrameInput := ⟨3, 300, true, false, fun _ => ("", false, "")⟩

def c3T4 : FrameInput := ⟨4, 400, false, false, fun _ => ("", false, "")⟩

/-- **C3, counterexample.**  The claim that each `UtteranceComplete`
payload contains exactly the frames since that cycle's wake transition
fails on the second wake/sleep cycle: after wake(frame 1)/timeout(frame 2)
and wake(frame 3)/timeout(frame 4), the second payload is `[1, 2, 3, 4]`
(the payload `[3, 4]` demanded by the claim never occurs), because
`utteranceFrames` is never cleared. -/
theorem claimC3_counterexample :
    (runRec (initState (9/10)) [c3W1, c3T2, c3W3, c3T4]).2 =
      [Event.wakeWordDetected, Event.completeFrames [1, 2],
       Event.wakeWordDetected, Event.completeFrames [1, 2, 3, 4]] ∧
      Event.completeFrames [3, 4] ∉
        (runRec (initState (9/10)) [c3W1, c3T2, c3W3, c3T4]).2 := by
  constructor <;> decide

/-- **C3, amended.**  Every `completeFrames` payload emitted on a frame
equals the frame accumulator extended with the current frame — i.e. *all*
frames appended while awake since construction, in order, including the
current one.  The accumulator is *not* re-created empty on each wake, so
payloads of later cycles also contain the frames of earlier utterances
(see `claimC3_counterexample`); only the first cycle's payload consists
exactly of that cycle's frames. -/
theorem claimC3_payload (s : RecState) (i : FrameInput) (F : List Nat)
    (h : Event.completeFrames F ∈ (recognizeStep s i).2) :
    F = s.frames ++ [i.frame] := by
  unfold recognizeStep at h
  cases hW : (s.afterWake i).1.woke
  · rw [hW] at h
    simp only [Bool.false_eq_true, if_false] at h
    rcases afterWake_snd_cases s i with hwE | hwE <;> rw [hwE] at h <;> simp at h
  · rw [hW] at h
    simp only [if_true] at h
    rw [awakeBody_snd_eq] at h
    simp only [List.mem_append] at h
    rcases h with h | ((h | h) | h)
    · rcases afterWake_snd_cases s i with hwE | hwE <;> rw [hwE] at h <;> simp at h
    · rcases afterVad_snd_cases (s.afterWake i).1 i with hvE | hvE <;>
        rw [hvE] at h <;> simp at h
    · split at h
      · simp at h
      · rw [List.mem_singleton] at h
        injection h with h
        rw [h, afterSilence_frames, afterVad_fst_frames, afterWake_fst_frames]
    · exact absurd h (complete_not_mem_codeEvents _ _ _)

def c3AwakeState : RecState :=
  { speechLength := 9/10, realSpeechLength := 9/10, startSpeechLength := 4,
    woke := true, listen := true, prevSpeaking := some 100, speakingLength := 0,
    frames := [9], count := 0, wakeWordStreams := [], isSpeech := true }

def c3Timeout : FrameInput := ⟨10, 200, false, false, fun _ => ("", false, "")⟩

/-- **C3, witness.**  The amended theorem applied to a concrete awake state
whose accumulator already holds frame 9 and a timeout frame 10: the
emitted payload is `[9, 10]`, the accumulator plus the current frame. -/
theorem claimC3_witness :
    [9, 10] = c3AwakeState.frames ++ [c3Timeout.frame] :=
  claimC3_payload c3AwakeState c3Timeout [9, 10] (by decide)

/-! ### Claim C4 -/

/-- Number of Sleeping-to-Awake transitions along a run: frames entered
asleep on which the wake-word check leaves the orchestrator awake. -/
def wakeTransitions : RecState → List FrameInput → Nat
  | _, [] => 0
  | s, i :: rest =>
    (if s.woke = false ∧ (s.afterWake i).1.woke = true then 1 else 0)
      + wakeTransitions (recognizeStep s i).1 rest

theorem awakeBody_count_wake (s : RecState) (i : FrameInput) :
    ((s.awakeBody i).2).count Event.wakeWordDetected = 0 := by
  rw [awakeBody_snd_eq, List.count_append, List.count_append]
  have h1 : ((s.afterVad i).2).count Event.wakeWordDetected = 0 := by
    rw [List.count_eq_zero]
    rcases afterVad_snd_cases s i with h | h <;> rw [h] <;> simp
  have h2 : (if ((s.afterVad i).1.afterSilence i.now).isSpeech then ([] : List Event)
      else [Event.completeFrames ((s.afterVad i).1.afterSilence i.now).frames]).count
        Event.wakeWordDetected = 0 := by
    rw [List.count_eq_zero]
    split <;> simp
  have h3 : (codeEvents (i.recognize ((s.afterVad i).1.afterSilence i.now).isSpeech).1
      (i.recognize ((s.afterVad i).1.afterSilence i.now).isSpeech).2.2).count
        Event.wakeWordDetected = 0 :=
    List.count_eq_zero.mpr (wake_not_mem_codeEvents _ _)
  rw [h1, h2, h3]

theorem step_wake_count (s : RecState) (i : FrameInput) :
    ((recognizeStep s i).2).count Event.wakeWordDetected
      = if s.woke = false ∧ (s.afterWake i).1.woke = true then 1 else 0 := by
  cases hw : s.woke
  · cases hm : i.wakeMatch
    · rw [recognizeStep_sleep s i hw hm]
      have : (s.afterWake i).1.woke = false := by
        rw [afterWake_fst_woke, hw, hm]; rfl
      simp [this]
    · have hWake := afterWake_sleep_match s i hw hm
      have hw1 : (s.afterWake i).1.woke = true := by rw [hWake]
      unfold recognizeStep
      rw [if_pos hw1, List.count_append, awakeBody_count_wake]
      rw [hWake]
      simp
  · have hWake := afterWake_of_woke s i hw
    have hw1 : (s.afterWake i).1.woke = true := by rw [hWake]; exact hw
    unfold recognizeStep
    rw [if_pos hw1, List.count_append, awakeBody_count_wake]
    rw [hWake]
    simp [hw]

theorem runRec_count_wake :
    ∀ (inps : List FrameInput) (s : RecState),
      ((runRec s inps).2).count Event.wakeWordDetected = wakeTransitions s inps := by
  intro inps
  induction inps with
  | nil => intro s; simp [runRec, wakeTransitions]
  | cons i rest ih =>
    intro s
    simp only [runRec, wakeTransitions, List.count_append, step_wake_count, ih]

def c4AwakeState : RecState :=
  { speechLength := 9/10, realSpeechLength := 9/10, startSpeechLength := 4,
    woke := true, listen := true, prevSpeaking := some 100, speakingLength := 0,
    frames := [], count := 0, wakeWordStreams := [], isSpeech := true }

def c4Match : FrameInput := ⟨5, 100, true, false, fun _ => ("", false, "")⟩

/-- **C4.**  Along every run, the number of `wakeWordDetected` events
equals the number of Sleeping-to-Awake transitions (frames entered asleep
on which the wake-word check wakes the orchestrator); and on any frame
processed while already awake, no `wakeWordDetected` event is emitted even
if the detector reports a match on that frame. -/
theorem claimC4_wake_events (sl : Rat) (inps : List FrameInput) :
    ((runRec (initState sl) inps).2).count Event.wakeWordDetected
        = wakeTransitions (initState sl) inps ∧
      ∀ s i, s.woke = true →
        ((recognizeStep s i).2).count Event.wakeWordDetected = 0 := by
  constructor
  · exact runRec_count_wake inps (initState sl)
  · intro s i h
    rw [step_wake_count]
    simp [h]

/-- **C4, witness.**  The second conjunct applied to a concrete awake state
and a frame on which the wake-word detector reports a match: no
`wakeWordDetected` event is emitted. -/
theorem claimC4_witness :
    ((recognizeStep c4AwakeState c4Match).2).count Event.wakeWordDetected = 0 :=
  (claimC4_wake_events (9/10) []).2 c4AwakeState c4Match (by decide)

/-! ### Claim C5 -/

theorem ringPush_length (l : List Nat) (f : Nat) (h : l.length ≤ 30) :
    (ringPush l f).length ≤ 30 := by
  unfold ringPush
  split <;> simp [List.length_tail] <;> omega

theorem afterWake_fst_wakeWordStreams (s : RecState) (i : FrameInput) :
    ((s.afterWake i).1).wakeWordStreams =
      if s.woke then s.wakeWordStreams else ringPush s.wakeWordStreams i.frame := by
  cases h : s.woke <;> cases hm : i.wakeMatch <;>
    simp [afterWake_of_woke, afterWake_sleep_nomatch, afterWake_sleep_match, h, hm]

theorem step_ring_len (s : RecState) (i : FrameInput)
    (h : s.wakeWordStreams.length ≤ 30) :
    (recognizeStep s i).1.wakeWordStreams.length ≤ 30 := by
  have key : (recognizeStep s i).1.wakeWordStreams
      = ((s.afterWake i).1).wakeWordStreams := by
    unfold recognizeStep
    split
    · rw [awakeBody_fst_wakeWordStreams]
    · rfl
  rw [key, afterWake_fst_wakeWordStreams]
  split
  · exact h
  · exact ringPush_length _ _ h

theorem ringPush_drop (l : List Nat) (f : Nat) (R : List Nat) (h : l.length ≤ 30) :
    (ringPush l f ++ R).drop ((ringPush l f).length + R.length - 30)
      = (l ++ f :: R).drop (l.length + (R.length + 1) - 30) := by
  unfold ringPush
  by_cases h30 : 30 ≤ l.length
  · rw [if_pos h30]
    have h30e : l.length = 30 := le_antisymm h h30
    rcases l with _ | ⟨a, t⟩
    · simp at h30e
    · have ht : t.length = 29 := by
        rw [List.length_cons] at h30e; omega
      simp only [List.tail_cons]
      have e1 : (t ++ [f]).length + R.length - 30 = R.length := by
        rw [List.length_append, List.length_singleton, ht]
        omega
      have e2 : (a :: t).length + (R.length + 1) - 30 = R.length + 1 := by
        rw [List.length_cons, ht]; omega
      rw [e1, e2, List.append_assoc, List.singleton_append, List.cons_append,
        List.drop_succ_cons]
  · rw [if_neg h30, List.append_assoc, List.singleton_append, List.length_append,
      List.length_singleton]
    congr 1
    omega

theorem sleepRun_ring :
    ∀ (inps : List FrameInput) (s : RecState), s.woke = false →
      s.wakeWordStreams.length ≤ 30 →
      (∀ j ∈ inps, j.wakeMatch = false) →
      (runRec s inps).1.wakeWordStreams
          = (s.wakeWordStreams ++ inps.map FrameInput.frame).drop
              ((s.wakeWordStreams.length + inps.length) - 30) ∧
        (runRec s inps).1.woke = false := by
  intro inps
  induction inps with
  | nil =>
    intro s hw hlen _
    have hz : s.wakeWordStreams.length + 0 - 30 = 0 := by omega
    simp only [runRec, List.map_nil, List.append_nil, List.length_nil, hz,
      List.drop_zero]
    exact ⟨trivial, hw⟩
  | cons i rest ih =>
    intro s hw hlen hNo
    have hm : i.wakeMatch = false := hNo i (List.mem_cons_self _ _)
    have hstep := recognizeStep_sleep s i hw hm
    simp only [runRec, hstep]
    have ihApp := ih { s with wakeWordStreams := ringPush s.wakeWordStreams i.frame }
      hw (ringPush_length _ _ hlen)
      (fun j hj => hNo j (List.mem_cons_of_mem _ hj))
    refine ⟨?_, ihApp.2⟩
    rw [ihApp.1]
    simp only [List.map_cons, List.length_cons]
    have key := ringPush_drop s.wakeWordStreams i.frame (rest.map FrameInput.frame) hlen
    simp only [List.length_map] at key
    exact key

theorem runRec_ring_len (sl : Rat) (inps : List FrameInput) :
    (runRec (initState sl) inps).1.wakeWordStreams.length ≤ 30 :=
  runRec_inv (Q := fun _ => True) (P := fun s => s.wakeWordStreams.length ≤ 30)
    (fun s i _ h => step_ring_len s i h) inps (initState sl) (fun _ _ => trivial)
    (by simp [initState])

def c5Inputs : List FrameInput :=
  (List.range 31).map (fun k => ⟨k, 0, false, false, fun _ => ("", false, "")⟩)

/-- **C5.**  The pre-wake ring buffer `wakeWordStreams` never exceeds
length 30 after any processed frame of any run; and after processing `N ≥ 30`
frames entirely asleep (no wake-word match), it contains exactly the last
30 frames in order (the oldest frames having been evicted first), i.e. the
frame list with its first `N - 30` entries dropped — including the current
frame. -/
theorem claimC5_ring (sl : Rat) (inps : List FrameInput) :
    (runRec (initState sl) inps).1.wakeWordStreams.length ≤ 30 ∧
      ((∀ j ∈ inps, j.wakeMatch = false) → 30 ≤ inps.length →
        (runRec (initState sl) inps).1.wakeWordStreams
          = (inps.map FrameInput.frame).drop (inps.length - 30)) := by
  constructor
  · exact runRec_ring_len sl inps
  · intro hNo _
    have h := (sleepRun_ring inps (initState sl) rfl (by simp [initState]) hNo).1
    simpa [initState] using h

/-- **C5, witness.**  The content half applied to 31 concrete asleep
frames `0..30`: the buffer holds exactly frames `1..30`. -/
theorem claimC5_witness :
    (runRec (initState (9/10)) c5Inputs).1.wakeWordStreams
      = (c5Inputs.map FrameInput.frame).drop (c5Inputs.length - 30) :=
  (claimC5_ring (9/10) c5Inputs).2 (by decide) (by decide)

/-! ### Claim C6 -/

theorem step_startSpeechLength (s : RecState) (i : FrameInput) :
    (recognizeStep s i).1.startSpeechLength = s.startSpeechLength := by
  unfold recognizeStep
  split
  · rw [awakeBody_fst_startSpeechLength, afterWake_fst_startSpeechLength]
  · rw [afterWake_fst_startSpeechLength]

theorem step_realSpeechLength (s : RecState) (i : FrameInput) :
    (recognizeStep s i).1.realSpeechLength = s.realSpeechLength := by
  unfold recognizeStep
  split
  · rw [awakeBody_fst_realSpeechLength, afterWake_fst_realSpeechLength]
  · rw [afterWake_fst_realSpeechLength]

theorem afterWake_fst_prevSpeaking_cases (s : RecState) (i : FrameInput) :
    ((s.afterWake i).1).prevSpeaking = s.prevSpeaking ∨
      ((s.afterWake i).1).prevSpeaking = some i.now := by
  cases h : s.woke <;> cases hm : i.wakeMatch <;>
    simp [afterWake_of_woke, afterWake_sleep_nomatch, afterWake_sleep_match, h, hm]

theorem afterVad_fst_prevSpeaking_cases (s : RecState) (i : FrameInput) :
    ((s.afterVad i).1).prevSpeaking = s.prevSpeaking ∨
      ((s.afterVad i).1).prevSpeaking = some i.now := by
  cases h : i.vadSpeech <;> simp [afterVad_of_no, afterVad_of_yes, h]

theorem resetState_prevSpeaking (s : RecState) (now : Rat) :
    (s.resetState now).prevSpeaking = some now := rfl

theorem step_prevSpeaking_cases (s : RecState) (i : FrameInput) :
    (recognizeStep s i).1.prevSpeaking = s.prevSpeaking ∨
      (recognizeStep s i).1.prevSpeaking = some i.now := by
  unfold recognizeStep
  split
  · rw [awakeBody_fst_eq]
    split
    · rw [afterSilence_prevSpeaking]
      rcases afterVad_fst_prevSpeaking_cases (s.afterWake i).1 i with he | he
      · rw [he]; exact afterWake_fst_prevSpeaking_cases s i
      · rw [he]; right; rfl
    · rw [resetState_prevSpeaking]; right; rfl
  · exact afterWake_fst_prevSpeaking_cases s i

theorem step_prevSpeaking_some (s : RecState) (i : FrameInput)
    (h : s.woke = true → s.prevSpeaking ≠ none) :
    (recognizeStep s i).1.woke = true →
      (recognizeStep s i).1.prevSpeaking ≠ none := by
  unfold recognizeStep
  cases hW : (s.afterWake i).1.woke
  · simp only [Bool.false_eq_true, if_false]
    rw [hW]
    intro hc
    cases hc
  · simp only [if_true]
    intro _
    rw [awakeBody_fst_eq]
    split
    · rw [afterSilence_prevSpeaking]
      rcases afterVad_fst_prevSpeaking_cases (s.afterWake i).1 i with he | he
      · rw [he]
        cases hsw : s.woke
        · cases hm : i.wakeMatch
          · have hcontra := afterWake_fst_woke s i
            rw [hW, hsw, hm] at hcontra
            simp at hcontra
          · rw [afterWake_sleep_match s i hsw hm]
            simp
        · rw [afterWake_of_woke s i hsw]
          exact h hsw
      · rw [he]; simp
    · rw [resetState_prevSpeaking]; simp

/-- The invariant maintained along runs with positive timestamps: the two
configured thresholds are constant, and `prevSpeaking` only ever holds
positive timestamps (hence is truthy whenever set), being set whenever the
orchestrator is awake. -/
def TimeInv (sl : Rat) (s : RecState) : Prop :=
  s.startSpeechLength = 4 ∧ s.realSpeechLength = sl ∧
    (∀ t, s.prevSpeaking = some t → 0 < t) ∧
    (s.woke = true → s.prevSpeaking ≠ none)

theorem step_timeInv (sl : Rat) (s : RecState) (i : FrameInput)
    (hq : 0 < i.now) (h : TimeInv sl s) : TimeInv sl (recognizeStep s i).1 := by
  obtain ⟨h4, hr, hp, hwp⟩ := h
  refine ⟨?_, ?_, ?_, ?_⟩
  · rw [step_startSpeechLength]; exact h4
  · rw [step_realSpeechLength]; exact hr
  · intro t ht
    rcases step_prevSpeaking_cases s i with he | he
    · exact hp t (he ▸ ht)
    · rw [he] at ht
      injection ht with ht
      rw [← ht]
      exact hq
  · exact step_prevSpeaking_some s i hwp

theorem runRec_timeInv (sl : Rat) (inps : List FrameInput)
    (hpos : ∀ j ∈ inps, 0 < j.now) :
    TimeInv sl (runRec (initState sl) inps).1 := by
  refine runRec_inv (Q := fun i => 0 < i.now) (P := TimeInv sl)
    (fun s i hq h => step_timeInv sl s i hq h) inps (initState sl) hpos
    ⟨rfl, rfl, ?_, ?_⟩
  · intro t ht
    simp [initState] at ht
  · intro hc
    simp [initState] at hc

theorem threshold_of_timeInv (sl : Rat) (s : RecState) (i : FrameInput)
    (hi : 0 < i.now) (hinv : TimeInv sl s)
    (hw : ((s.afterWake i).1).woke = true) :
    (stateAtRecognize s i).speechLength
      = (if (stateAtVad s i).count = 0 then 4 else sl) := by
  obtain ⟨h4, hr, hp, hwp⟩ := hinv
  have hAW : ∃ t, ((s.afterWake i).1).prevSpeaking = some t ∧ 0 < t := by
    cases hsw : s.woke
    · cases hm : i.wakeMatch
      · exfalso
        have hcontra := afterWake_fst_woke s i
        rw [hw, hsw, hm] at hcontra
        simp at hcontra
      · rw [afterWake_sleep_match s i hsw hm]
        exact ⟨i.now, rfl, hi⟩
    · rw [afterWake_of_woke s i hsw]
      rcases ho : s.prevSpeaking with _ | t
      · exact absurd ho (hwp hsw)
      · exact ⟨t, rfl, hp t ho⟩
  have hVAD : ∃ t, (stateAtVad s i).prevSpeaking = some t ∧ 0 < t := by
    unfold stateAtVad
    cases hv : i.vadSpeech
    · obtain ⟨t, ht, htp⟩ := hAW
      rw [afterVad_of_no _ _ hv]
      exact ⟨t, ht, htp⟩
    · rw [afterVad_of_yes _ _ hv]
      exact ⟨i.now, rfl, hi⟩
  obtain ⟨t, ht, htpos⟩ := hVAD
  have key := afterSilence_speechLength_of_truthy (stateAtVad s i) i.now t ht
    (ne_of_gt htpos)
  rw [show stateAtRecognize s i = (stateAtVad s i).afterSilence i.now from rfl, key]
  have hst : (stateAtVad s i).startSpeechLength = 4 := by
    unfold stateAtVad
    rw [afterVad_fst_startSpeechLength, afterWake_fst_startSpeechLength]
    exact h4
  have hrl : (stateAtVad s i).realSpeechLength = sl := by
    unfold stateAtVad
    rw [afterVad_fst_realSpeechLength, afterWake_fst_realSpeechLength]
    exact hr
  rw [hst, hrl]

def c6Wake : FrameInput := ⟨1, 100, true, false, fun _ => ("", false, "")⟩

def c6Tick : FrameInput := ⟨2, 101, false, false, fun _ => ("", false, "")⟩

/-- **C6.**  On every frame processed awake along a run with positive
timestamps, the silence threshold in force for the end-of-utterance
decision of that frame (the `speechLength` field of the state entering the
`_speakingLength > speechLength` comparison) equals the startup silence
timeout `startSpeechLength = 4` (seconds) while the speech frame count at
the decision point is zero, and equals the steady silence timeout — the
constructor parameter `speechLength`, default `0.9` — once at least one
speech frame has been detected since waking. -/
theorem claimC6_threshold (sl : Rat) (inps : List FrameInput) (i : FrameInput)
    (hpos : ∀ j ∈ inps, 0 < j.now) (hi : 0 < i.now)
    (hw : (((runRec (initState sl) inps).1).afterWake i).1.woke = true) :
    (stateAtRecognize (runRec (initState sl) inps).1 i).speechLength
      = (if (stateAtVad (runRec (initState sl) inps).1 i).count = 0
          then 4 else sl) :=
  threshold_of_timeInv sl (runRec (initState sl) inps).1 i hi
    (runRec_timeInv sl inps hpos) hw

/-- **C6, witness.**  The theorem applied to the concrete run that wakes
on frame 1 and then processes a silent frame 2: no speech frame yet, so
the threshold in force is the startup timeout `4`. -/
theorem claimC6_witness :
    (stateAtRecognize (runRec (initState (9/10)) [c6Wake]).1 c6Tick).speechLength
      = (if (stateAtVad (runRec (initState (9/10)) [c6Wake]).1 c6Tick).count = 0
          then 4 else 9/10) :=
  claimC6_threshold (9/10) [c6Wake] c6Tick (by decide) (by decide) (by decide)

/-! ### Claim C7 -/

theorem codeEvents_error (text code : String)
    (h : pyStartsWith code "error: " = true) :
    codeEvents text code = [Event.error code] := by
  have h1 : code ≠ "partial" := by rintro rfl; exact absurd h (by decide)
  have h2 : code ≠ "full" := by rintro rfl; exact absurd h (by decide)
  have h3 : code ≠ "unrecognized" := by rintro rfl; exact absurd h (by decide)
  unfold codeEvents
  rw [if_neg h1, if_neg h2, if_neg h3, if_pos h]

/-- **C7.**  When the backend reports an `error: ...` status on a frame
processed awake whose silence timeout has *not* fired (`isSpeech` flag
still true), the orchestrator emits the `error` event carrying the status
string, stays awake, and its post-frame state is exactly the state of the
normal per-frame updates (ring/wake, frame append, VAD, silence phases) —
the backend error changes no orchestrator state, so subsequent frames are
processed from an uncorrupted state. -/
theorem claimC7_error_nonfatal (s : RecState) (i : FrameInput)
    (hw : ((s.afterWake i).1).woke = true)
    (hs : (stateAtRecognize s i).isSpeech = true)
    (hc : pyStartsWith (i.recognize true).2.2 "error: " = true) :
    (recognizeStep s i).1 = stateAtRecognize s i ∧
      (recognizeStep s i).1.woke = true ∧
      (recognizeStep s i).2 =
        (s.afterWake i).2 ++ (((s.afterWake i).1).afterVad i).2
          ++ [Event.error (i.recognize true).2.2] := by
  unfold stateAtRecognize at hs ⊢
  have hstate : (recognizeStep s i).1
      = (((s.afterWake i).1.afterVad i).1).afterSilence i.now := by
    unfold recognizeStep
    simp only [hw, if_true]
    rw [awakeBody_fst_eq, hs]
    simp
  refine ⟨hstate, ?_, ?_⟩
  · rw [hstate, afterSilence_woke, afterVad_fst_woke]
    exact hw
  · unfold recognizeStep
    simp only [hw, if_true]
    rw [awakeBody_snd_eq, hs, codeEvents_error _ _ hc]
    simp

def c7AwakeState : RecState :=
  { speechLength := 9/10, realSpeechLength := 9/10, startSpeechLength := 4,
    woke := true, listen := true, prevSpeaking := some 100, speakingLength := 0,
    frames := [3], count := 1, wakeWordStreams := [], isSpeech := true }

def c7ErrFrame : FrameInput := ⟨4, 100 + 1/2, false, false,
  fun _ => ("", false, "error: network timeout")⟩

/-- **C7, witness.**  The theorem applied to a concrete awake state and a
mid-utterance frame whose backend answer is
`("", false, "error: network timeout")`. -/
theorem claimC7_witness :
    (recognizeStep c7AwakeState c7ErrFrame).1
        = stateAtRecognize c7AwakeState c7ErrFrame ∧
      (recognizeStep c7AwakeState c7ErrFrame).1.woke = true ∧
      (recognizeStep c7AwakeState c7ErrFrame).2 =
        (c7AwakeState.afterWake c7ErrFrame).2
          ++ ((c7AwakeState.afterWake c7ErrFrame).1.afterVad c7ErrFrame).2
          ++ [Event.error (c7ErrFrame.recognize true).2.2] :=
  claimC7_error_nonfatal c7AwakeState c7ErrFrame (by decide) (by decide) (by decide)

/-! ### Claim C8 -/

theorem sleepRun_silent :
    ∀ (inps : List FrameInput) (s : RecState), s.woke = false →
      (∀ j ∈ inps, j.wakeMatch = false) →
      (runRec s inps).2 = [] ∧ (runRec s inps).1.woke = false := by
  intro inps
  induction inps with
  | nil => intro s hw _; exact ⟨rfl, hw⟩
  | cons i rest ih =>
    intro s hw hNo
    have hm := hNo i (List.mem_cons_self _ _)
    have hstep := recognizeStep_sleep s i hw hm
    simp only [runRec, hstep]
    have ihApp := ih { s with wakeWordStreams := ringPush s.wakeWordStreams i.frame }
      hw (fun j hj => hNo j (List.mem_cons_of_mem _ hj))
    rw [List.nil_append]
    exact ⟨ihApp.1, ihApp.2⟩

/-- **C8.**  On a silent stream — the wake-word detector never matches and
the VAD never reports speech — the orchestrator emits no events at all and
stays asleep after every frame: every prefix of the run produces the empty
event list and ends with `woke = false`.  (While asleep the VAD is not
even consulted, so the conclusion needs only the absence of wake
matches.) -/
theorem claimC8_silent (sl : Rat) (inps : List FrameInput)
    (h : ∀ j ∈ inps, j.wakeMatch = false ∧ j.vadSpeech = false) :
    ∀ n, (runRec (initState sl) (inps.take n)).2 = [] ∧
      (runRec (initState sl) (inps.take n)).1.woke = false := by
  intro n
  exact sleepRun_silent (inps.take n) (initState sl) rfl
    (fun j hj => (h j (List.take_subset _ _ hj)).1)

def c8Inputs : List FrameInput :=
  [⟨1, 10, false, false, fun _ => ("", false, "")⟩,
   ⟨2, 11, false, false, fun _ => ("", false, "")⟩,
   ⟨3, 12, false, false, fun _ => ("", false, "")⟩]

/-- **C8, witness.**  The theorem applied to three concrete silent frames,
inspected after the two-frame prefix. -/
theorem claimC8_witness :
    (runRec (initState (9/10)) (c8Inputs.take 2)).2 = [] ∧
      (runRec (initState (9/10)) (c8Inputs.take 2)).1.woke = false :=
  claimC8_silent (9/10) c8Inputs (by decide) 2

/-! ### Claim C9 -/

/-- The answers of the underlying Kaldi recognizer during one
`VoskRecognizer.recognize` call: whether `AcceptWaveform` returned true,
the `"text"` field of `Result()`, and the `"partial"` field of
`PartialResult()`. -/
structure VoskOracle where
  accepted : Bool
  resultText : String
  partialText : String

/-- `VoskRecognizer.recognize` (lines 57-75).  The first component is the
returned triple `(text, status, code)`; the second `Bool` records whether
`self.rec.Reset()` was called on this path.  Python string truthiness is
modelled as `≠ ""`. -/
def voskRecognize (o : VoskOracle) (isSpeech : Bool) :
    (String × Bool × String) × Bool :=
  let full := if o.accepted then o.resultText else ""
  let partialRes := if o.accepted then "" else o.partialText
  if partialRes ≠ "" ∧ isSpeech = true then ((partialRes, true, "partial"), false)
  else if full ≠ "" ∨ isSpeech = false then
    ((if full = "" then partialRes else full, true, "full"), true)
  else (("", false, ""), false)

/-- **C9.**  Whenever `VoskRecognizer.recognize` is called with
`isSpeech == false`, the result's status code is `"full"` with finality
`true` (never the partial, unrecognized, or empty-status paths), the
Kaldi recognizer is reset, and when the final recognition text is empty
the returned text falls back to the last partial result's text (possibly
the empty string). -/
theorem claimC9_vosk_flush (o : VoskOracle) :
    (voskRecognize o false).1.2.2 = "full" ∧
      (voskRecognize o false).1.2.1 = true ∧
      (voskRecognize o false).2 = true ∧
      ((if o.accepted then o.resultText else "") = "" →
        (voskRecognize o false).1.1 = (if o.accepted then "" else o.partialText)) := by
  unfold voskRecognize
  have h1 : ¬((if o.accepted then "" else o.partialText) ≠ "" ∧
      (false : Bool) = true) := by simp
  rw [if_neg h1, if_pos (Or.inr rfl)]
  refine ⟨rfl, rfl, rfl, ?_⟩
  intro h
  rw [if_pos h]

def c9Oracle : VoskOracle := ⟨false, "", "hello there"⟩

/-- **C9, witness.**  The fallback clause applied to a concrete oracle on
which `AcceptWaveform` returned false: the returned text is the partial
result `"hello there"`. -/
theorem claimC9_witness :
    (voskRecognize c9Oracle false).1.1 = "hello there" :=
  (claimC9_vosk_flush c9Oracle).2.2.2 (by decide)

/-! ### Claim C10 -/

/-- Outcome of the `recognizer.recognize_google(audio)` call. -/
inductive GoogleOutcome where
  | success (text : String)
  | unknownValue
  | failure (msg : String)

/-- The external effects during one batched `GoogleRecognizer.recognize`
call: whether loading the cached wav raised an exception (with its
message), and the google call's outcome. -/
structure GoogleEnv where
  loadError : Option String
  outcome : GoogleOutcome

/-- `GoogleRecognizer.recognize` (lines 109-133); the second component is
the recognizer's `frames` list after the call.  Line 122 interpolates the
load exception into `f"error: {e}"`; line 133 instead returns the plain
string literal `"error: {e}"` (the `f` prefix is missing in the source),
so the google-call exception message is not interpolated. -/
def googleRecognize (frames : List Nat) (env : GoogleEnv) (data : Nat)
    (isSpeech : Bool) : (String × Bool × String) × List Nat :=
  if isSpeech then (("", false, ""), frames ++ [data])
  else
    match env.loadError with
    | some e => (("", false, "error: " ++ e), [])
    | none =>
      match env.outcome with
      | GoogleOutcome.success t => ((t, true, "full"), [])
      | GoogleOutcome.unknownValue => (("", false, "unrecognized"), [])
      | GoogleOutcome.failure _ => (("", false, "error: {e}"), [])

/-- **C10.**  When `GoogleRecognizer.recognize` runs its batched
recognition (`isSpeech == false`), the wav loads fine, and the google
call raises an exception other than `UnknownValueError` with message `m`,
the returned status is the *literal* string `"error: {e}"` for every `m`:
the real failure reason never reaches the consumer's `Error` event. -/
theorem claimC10_google_error_literal (frames : List Nat) (env : GoogleEnv)
    (data : Nat) (m : String) (h1 : env.loadError = none)
    (h2 : env.outcome = GoogleOutcome.failure m) :
    (googleRecognize frames env data false).1.2.2 = "error: {e}" := by
  unfold googleRecognize
  simp only [Bool.false_eq_true, if_false]
  rw [h1, h2]

def c10Env : GoogleEnv := ⟨none, GoogleOutcome.failure "network timeout"⟩

/-- **C10, witness.**  The theorem applied at the concrete exception
message `"network timeout"`: the status carries no trace of it. -/
theorem claimC10_witness :
    (googleRecognize [7] c10Env 8 false).1.2.2 = "error: {e}" :=
  claimC10_google_error_literal [7] c10Env 8 "network timeout" rfl rfl
